import Mathlib

/-!
Verification of the build orchestrator scripts `compile_cpp.py` and `test_all.py`
of the bshoshany/thread-pool repository.

The development embeds, over an abstract filesystem snapshot, the pieces of the
scripts relevant to staleness tracking, module precompilation order, exit-code
handling, configuration merging, binary-name derivation, and output clearing.
Line numbers in doc comments refer to `scripts/compile_cpp.py` unless another
file is named.
-/

namespace CompileCpp

abbrev Path := String

/-- A filesystem snapshot: maps each path to its modification time, `none` when the
path does not exist. -/
structure FS where
  mtime : Path → Option Nat

/-- `pathlib.Path.exists()` on the snapshot. -/
def FS.pathExists (fs : FS) (p : Path) : Bool :=
  (fs.mtime p).isSome

/-- Lines 172-175: `print_error_and_exit` prints the message in red and calls
`sys.exit(1)` — the exit code is the constant 1, whatever failure is reported. -/
def print_error_exit_code : Nat := 1

/-- Lines 243-247 (inside `compile_module`): the module output is up to date iff it
exists and no path in `paths` both exists and has a strictly newer modification
time; this returns the complement, i.e. whether the module must be recompiled. -/
def module_needs_recompile (fs : FS) (module_output_path : Path) (paths : List Path) : Bool :=
  match fs.mtime module_output_path with
  | none => true
  | some module_output_mod =>
      paths.any fun p =>
        match fs.mtime p with
        | none => false
        | some m => decide (module_output_mod < m)

/-- The observable outcome of one `compile_module` call. -/
inductive ModuleOutcome where
  | upToDate
  | recompiled
  | fatal (exit_code : Nat)
deriving DecidableEq, Repr

/-- Lines 240-284: `compile_module`. If the output artifact is up to date the module
is skipped (Python returns `False`). Otherwise the script re-invokes itself; when
the child process returns a nonzero code (`child_return`), `print_error_and_exit`
fires, terminating the parent with exit code 1 irrespective of `child_return`. -/
def compile_module (fs : FS) (module_output_path : Path) (paths : List Path)
    (child_return : Nat) : ModuleOutcome :=
  if module_needs_recompile fs module_output_path paths then
    if child_return = 0 then .recompiled else .fatal print_error_exit_code
  else .upToDate

/-- Lines 556-562: `need_recompile` starts `True` and is reset to `False` only when
the force flag is off, no module was recompiled this run, the binary exists, and no
source or dependency path both exists and is strictly newer than the binary. -/
def need_recompile (fs : FS) (force recompiled_modules : Bool) (binary_path : Path)
    (input_paths : List Path) : Bool :=
  if !force && !recompiled_modules && fs.pathExists binary_path then
    match fs.mtime binary_path with
    | none => true
    | some binary_mod =>
        input_paths.any fun p =>
          match fs.mtime p with
          | none => false
          | some m => decide (binary_mod < m)
  else true

/-- The staleness criterion as the specification words it: rebuild exactly when the
artifact is absent, or some input path that exists on disk has a strictly greater
modification time; non-existent inputs contribute nothing. -/
def staleSpec (fs : FS) (artifact : Path) (input_paths : List Path) : Prop :=
  fs.mtime artifact = none ∨
    ∃ p ∈ input_paths, ∃ mp ma, fs.mtime p = some mp ∧ fs.mtime artifact = some ma ∧ ma < mp

/-- Outcome of the main compilation step: the script's exit code if it terminates
(`none` means it continues), and the filesystem after the step. -/
structure MainCompileOutcome where
  exit_code : Option Nat
  fsAfter : FS

/-- Lines 644-658: the main compilation. `fs_after_compiler` is the filesystem as the
spawned compiler process left it (it may or may not have written the target
artifact). On return code 0 the script continues; on a nonzero return it calls
`print_error_and_exit` — exit code 1, with no filesystem operation of its own (in
particular no deletion of the target artifact). -/
def main_compilation (fs_after_compiler : FS) (compiler_return : Nat) : MainCompileOutcome :=
  if compiler_return = 0 then ⟨none, fs_after_compiler⟩
  else ⟨some print_error_exit_code, fs_after_compiler⟩

/-- Lines 668-677: running the compiled program after a build; a nonzero return code
from the program again goes through `print_error_and_exit`. -/
def run_program_exit (run_return : Nat) : Option Nat :=
  if run_return = 0 then none else some print_error_exit_code

/-- Result of a matrix (all combinations) run: the combinations executed, in order,
and the overall exit code. -/
structure MatrixResult where
  executed : List (String × String)
  exit_code : Nat
deriving DecidableEq, Repr

/-- Lines 312-340: the `try_all` loop over the (compiler, standard) pairs. `result c s`
is the exit code of the recursive sub-build for that pair. The first nonzero result
triggers `sys.exit(1)` — the fixed code 1 — and no later pair is attempted; a fully
successful run exits 0. -/
def try_all_loop (result : String → String → Nat) : List (String × String) → MatrixResult
  | [] => ⟨[], 0⟩
  | (c, s) :: rest =>
    if result c s = 0 then
      let r := try_all_loop result rest
      ⟨(c, s) :: r.executed, r.exit_code⟩
    else ⟨[(c, s)], 1⟩

/-- `test_all.py` lines 50-87: the same loop shape, but a failing combination runs
`sys.exit(compile_result.returncode)`, propagating the child's own exit code. -/
def test_all_loop (result : String → String → Nat) : List (String × String) → MatrixResult
  | [] => ⟨[], 0⟩
  | (c, s) :: rest =>
    if result c s = 0 then
      let r := test_all_loop result rest
      ⟨(c, s) :: r.executed, r.exit_code⟩
    else ⟨[(c, s)], result c s⟩

/-- The nested iteration order of both matrix drivers: compilers outermost in
detection order, standards innermost from oldest to newest. -/
def matrix_pairs (compilers standards : List String) : List (String × String) :=
  compilers.foldr (fun c acc => standards.map (fun s => (c, s)) ++ acc) []

/-- Line 310 and `test_all.py` line 46: the standards, oldest to newest. -/
def all_standards : List String := ["c++17", "c++20", "c++23"]

/-- Lines 299-307 and `test_all.py` lines 34-43: compiler detection order is cl,
clang++, g++, with g++ skipped on macOS. -/
def detected_compilers (has_vs has_clang has_gpp is_darwin : Bool) : List String :=
  (if has_vs then ["cl"] else []) ++
  (if has_clang then ["clang++"] else []) ++
  (if has_gpp && !is_darwin then ["g++"] else [])

/-- One resolved module: its name, its file paths (first the module source, the rest
dependencies, line 540), and its output artifact path (line 541). -/
structure ModuleEntry where
  name : String
  paths : List Path
  output_path : Path
deriving DecidableEq, Repr

/-- The observable compile steps of one invocation. -/
inductive BuildEvent where
  | compileModule (name : String)
  | skipModule (name : String)
  | mainCompile
  | skipMain
deriving DecidableEq, Repr

def BuildEvent.isCompileModule : BuildEvent → Bool
  | .compileModule _ => true
  | _ => false

def BuildEvent.isModuleEvent : BuildEvent → Bool
  | .compileModule _ => true
  | .skipModule _ => true
  | _ => false

/-- The module name an event concerns, if any. -/
def moduleEventName : BuildEvent → Option String
  | .compileModule n => some n
  | .skipModule n => some n
  | _ => none

/-- The event recorded by one `compile_module` call: a recursive module build when
the output is stale (lines 248-278), a skip when it is up to date (lines 243-247). -/
def module_event (fs : FS) (m : ModuleEntry) : BuildEvent :=
  if module_needs_recompile fs m.output_path m.paths then .compileModule m.name
  else .skipModule m.name

/-- Lines 538-553: the module precompilation block. `mods` holds the resolved module
dictionary in insertion order (the injected std entry, when present, is first, line
464). When `as_module` is set the entire block is skipped (line 544). Otherwise the
std module is handled first when `use_std_module` holds (lines 545-546; only its
first listed file is passed there), then the remaining modules in declared order,
provided the standard is c++20 or c++23 (lines 547-552, `std_is_modern`). Returns
the event sequence together with the `recompiled_modules` flag. -/
def module_section (fs : FS) (as_module use_std_module std_is_modern : Bool)
    (mods : List ModuleEntry) : List BuildEvent × Bool :=
  if as_module then ([], false)
  else
    let stdEvents : List BuildEvent :=
      match mods.find? (fun m => m.name == "std") with
      | some e => if use_std_module then [module_event fs { e with paths := e.paths.take 1 }] else []
      | none => []
    let otherEvents : List BuildEvent :=
      if !mods.isEmpty && std_is_modern then
        (mods.filter (fun m => m.name != "std")).map (module_event fs)
      else []
    let events := stdEvents ++ otherEvents
    (events, events.any BuildEvent.isCompileModule)

/-- One invocation's compile-step sequence after option resolution: module
precompilation (lines 538-553) followed by the main compilation gated by
`need_recompile` (lines 556-562, 644-652). -/
def invocation_events (fs : FS) (as_module use_std_module std_is_modern force : Bool)
    (mods : List ModuleEntry) (binary_path : Path) (input_paths : List Path) : List BuildEvent :=
  let ms := module_section fs as_module use_std_module std_is_modern mods
  ms.1 ++ [if need_recompile fs force ms.2 binary_path input_paths then .mainCompile else .skipMain]

/-- The module names an event sequence touches, in order. -/
def eventNames (l : List BuildEvent) : List String :=
  l.filterMap moduleEventName

/-- The options relevant to the configuration merge as they stand after command-line
parsing (lines 368-379). `disable_exceptions` is `none` when the -x flag is absent,
`output` and `std_module` are `none` when the respective flag is absent; the
list-valued options default to the empty list. -/
structure CliOptions where
  defines : List String
  deps : List String
  disable_exceptions : Option Bool
  flags : List String
  includes : List String
  modules : List (String × List String)
  output : Option String
  pass_args : List String
  std_module : Option String
deriving DecidableEq, Repr

/-- The contents of `compile_cpp.yaml` as consumed by lines 388-405. An absent
list-valued key is the empty list (extending by it is a no-op); `flags` stands for
the entry already selected for the active compiler (line 394), and `std_module` for
the entry already resolved for the current platform and compiler (line 404). -/
structure ConfigDoc where
  defines : List String
  deps : List String
  disable_exceptions : Option Bool
  flags : List String
  includes : List String
  modules : List (String × List String)
  output : Option String
  pass_args : List String
  std_module : Option String
deriving DecidableEq, Repr

/-- Python `dict.update` on insertion-ordered association lists: a key already in
`base` keeps its position and receives the updating value; keys only in `upd` are
appended in `upd` order. -/
def dict_update (base upd : List (String × List String)) : List (String × List String) :=
  base.map (fun kv =>
      match upd.find? (fun uv => uv.1 == kv.1) with
      | some uv => (kv.1, uv.2)
      | none => kv) ++
    upd.filter (fun uv => base.all (fun kv => kv.1 != uv.1))

/-- Lookup in the insertion-ordered module dictionary. -/
def lookup_module (mods : List (String × List String)) (k : String) : Option (List String) :=
  (mods.find? (fun kv => kv.1 == k)).map Prod.snd

/-- The resolved options after the configuration merge. -/
structure ResolvedOptions where
  defines : List String
  deps : List String
  disable_exceptions : Bool
  flags : List String
  includes : List String
  modules : List (String × List String)
  output : Option String
  pass_args : List String
  std_module : Option String
deriving DecidableEq, Repr

/-- Lines 367-405: merging `compile_cpp.yaml` into the command-line options.
List-valued options are extended with the document's entries (lines 388-397, 402);
`disable_exceptions` from the document applies only when the -x flag is absent
(lines 370, 392); the modules dictionary is merged with `dict.update` (line 399), so
a document entry replaces a same-named command-line entry; `output` (line 400) and
`std_module` (line 404) are taken from the document only when the command line omits
them. -/
def merge_config (cli : CliOptions) (cfg : ConfigDoc) : ResolvedOptions where
  defines := cli.defines ++ cfg.defines
  deps := cli.deps ++ cfg.deps
  disable_exceptions :=
    match cli.disable_exceptions with
    | some b => b
    | none => cfg.disable_exceptions.getD false
  flags := cli.flags ++ cfg.flags
  includes := cli.includes ++ cfg.includes
  modules := dict_update cli.modules cfg.modules
  output :=
    match cli.output with
    | some o => some o
    | none => cfg.output
  pass_args := cli.pass_args ++ cfg.pass_args
  std_module :=
    match cli.std_module with
    | some s => some s
    | none => cfg.std_module

/-- Lines 527-534: automatic binary-name derivation, used when `auto_binary` holds.
Python evaluates `source_paths[0].stem` with no emptiness guard, so on an empty
source list the subscript raises an uncaught IndexError — modelled here as `none`;
on a nonempty list the name is the first stem followed by the module indicator, the
suffix (mode, compiler, standard), and the extension. -/
def auto_binary_name (source_stems : List String) (as_module is_windows : Bool)
    (module_extension suffix : String) : Option String :=
  let extension := if as_module then module_extension else if is_windows then ".exe" else ""
  let module_indicator := if as_module then "module_" else ""
  match source_stems with
  | [] => none
  | stem :: _ => some (stem ++ "_" ++ module_indicator ++ suffix ++ extension)

/-- Straight-line control flow from argument parsing to line 533 for an invocation
whose option resolution succeeds: the only early exit tied to an empty file list is
the clear-and-exit path (`clear_output` set with no sources, lines 444-446); there is
no dedicated no-input-files check, so with `clear_output` unset an empty list reaches
the derivation whenever the binary name is automatic. -/
def reaches_auto_binary (clear_output : Bool) (num_sources : Nat) (auto_binary : Bool) : Bool :=
  !(clear_output && num_sources == 0) && auto_binary

/-- Outcome of the clear-output block: a fatal error (`print_error_and_exit`), a
successful clear-and-exit (`sys.exit(0)`, line 446), or normal continuation. -/
inductive ClearOutcome where
  | fatal (exit_code : Nat)
  | exitZero
  | proceed
deriving DecidableEq, Repr

/-- Whether `p` is the folder itself or lies underneath it. -/
def isUnderFolder (folder p : Path) : Bool :=
  p == folder || (folder ++ "/").isPrefixOf p

/-- `shutil.rmtree` on the snapshot: removes the folder and everything under it. -/
def rmtree (fs : FS) (folder : Path) : FS :=
  ⟨fun p => if isUnderFolder folder p then none else fs.mtime p⟩

/-- `pathlib.Path.mkdir(exist_ok=True, parents=True)` on the snapshot: creates the
folder with timestamp `now` when it is absent. -/
def mkdir (fs : FS) (folder : Path) (now : Nat) : FS :=
  ⟨fun p => if p == folder && !fs.pathExists folder then some now else fs.mtime p⟩

/-- Lines 431-449: the clear-output handling. With the flag set, a build folder equal
to the current working directory is a fatal error raised before any deletion (lines
433-434); otherwise the folder is removed if present and recreated (lines 435-443),
and when no source files were given the script exits 0 (lines 444-446). Without the
flag the folder is merely created if missing (line 449). -/
def clear_output_step (fs : FS) (clear_output : Bool) (build_folder cwd : Path)
    (num_sources : Nat) (now : Nat) : ClearOutcome × FS :=
  if clear_output then
    if build_folder == cwd then (ClearOutcome.fatal print_error_exit_code, fs)
    else
      let fs1 :=
        if fs.pathExists build_folder then mkdir (rmtree fs build_folder) build_folder now
        else mkdir fs build_folder now
      ((if num_sources == 0 then ClearOutcome.exitZero else ClearOutcome.proceed), fs1)
  else (ClearOutcome.proceed, mkdir fs build_folder now)

/-! Concrete inputs used by the counterexamples and witnesses. -/

/-- A snapshot holding only a stale file at the target artifact path. -/
def fsC1 : FS := ⟨fun p => if p == "build/out.exe" then some 50 else none⟩

/-- The empty snapshot: every module is missing, hence stale. -/
def fsC2 : FS := ⟨fun _ => none⟩

/-- A snapshot where the std module source exists but its output artifact does not. -/
def fsC3 : FS := ⟨fun p => if p == "std.cppm" then some 10 else none⟩

/-- The std module entry used by the C3 counterexample. -/
def stdEntryC3 : ModuleEntry := ⟨"std", ["std.cppm"], "std_module.pcm"⟩

/-- A snapshot where the artifact exists and its only declared input does not. -/
def fsC4 : FS := ⟨fun p => if p == "prog.exe" then some 30 else none⟩

/-- A snapshot where the util module output (time 10) is newer than its source
(time 5): the module is up to date. -/
def fsC5 : FS :=
  ⟨fun p => if p == "util.cppm" then some 5 else if p == "util_module.pcm" then some 10 else none⟩

/-- The util module entry used by the C5 counterexample. -/
def utilEntryC5 : ModuleEntry := ⟨"util", ["util.cppm"], "util_module.pcm"⟩

/-- Sub-build results for the C6 counterexample: the fourth combination of
cl/clang++ crossed with the three standards fails with exit code 2. -/
def resultC6 : String → String → Nat :=
  fun c s => if c == "clang++" && s == "c++17" then 2 else 0

/-- Sub-build results for the C6 witness: the fourth combination of cl/g++ crossed
with the three standards fails with exit code 7. -/
def resultC6w : String → String → Nat :=
  fun c s => if c == "g++" && s == "c++17" then 7 else 0

/-- Command-line options declaring module util with one file list. -/
def cliC7 : CliOptions := ⟨[], [], none, [], [], [("util", ["cli_util.cppm"])], none, [], none⟩

/-- A configuration document declaring module util with a different file list. -/
def cfgC7 : ConfigDoc := ⟨[], [], none, [], [], [("util", ["yaml_util.cppm"])], none, [], none⟩

/-- Command-line options for the C7 witness: output and std-module given, exceptions
disabled, one module, one define. -/
def cliC7w : CliOptions :=
  ⟨["CLI_DEF"], [], some false, [], [], [("alpha", ["alpha_cli.cppm"])], some "cli_out", [], some "cli_std.cppm"⟩

/-- Configuration document for the C7 witness. -/
def cfgC7w : ConfigDoc :=
  ⟨["YAML_DEF"], [], some true, [], [], [("beta", ["beta_yaml.cppm"])], some "yaml_out", [], some "yaml_std.cppm"⟩

/-- A snapshot for the C8 witness: std fresh (output 10 vs source 5), alpha stale
(output 10 vs source 20), beta fresh (output 10 vs source 5), binary present. -/
def fsC8 : FS :=
  ⟨fun p =>
    if p == "std.cppm" then some 5
    else if p == "std_module.pcm" then some 10
    else if p == "alpha.cppm" then some 20
    else if p == "alpha_module.pcm" then some 10
    else if p == "beta.cppm" then some 5
    else if p == "beta_module.pcm" then some 10
    else if p == "prog" then some 1
    else if p == "main.cpp" then some 0
    else none⟩

/-- The declared modules of the C8 witness, std first then alpha then beta. -/
def modsC8 : List ModuleEntry :=
  [⟨"std", ["std.cppm"], "std_module.pcm"⟩,
   ⟨"alpha", ["alpha.cppm"], "alpha_module.pcm"⟩,
   ⟨"beta", ["beta.cppm"], "beta_module.pcm"⟩]

/-- A snapshot holding a project folder with one file in it, used by the C10 witness. -/
def fsC10 : FS :=
  ⟨fun p => if p == "proj" then some 3 else if p == "proj/a.cpp" then some 4 else none⟩

/-! Helper lemmas. -/

theorem moduleEventName_module_event (fs : FS) (m : ModuleEntry) :
    moduleEventName (module_event fs m) = some m.name := by
  unfold module_event
  split <;> rfl

theorem isModuleEvent_of_main (b : Bool) :
    (if b then BuildEvent.mainCompile else BuildEvent.skipMain).isModuleEvent = false := by
  cases b <;> rfl

theorem need_recompile_of_recompiled (fs : FS) (force : Bool) (bin : Path)
    (inputs : List Path) : need_recompile fs force true bin inputs = true := by
  unfold need_recompile
  simp

theorem need_recompile_of_force (fs : FS) (r : Bool) (bin : Path)
    (inputs : List Path) : need_recompile fs true r bin inputs = true := by
  unfold need_recompile
  simp

theorem need_recompile_eq_module_check (fs : FS) (a : Path) (l : List Path) :
    need_recompile fs false false a l = module_needs_recompile fs a l := by
  unfold need_recompile module_needs_recompile FS.pathExists
  cases h : fs.mtime a <;> simp [h]

/-! ### C1: artifact handling after a failed main compilation -/

/-- C1, counterexample: the compiler exits with code 2 while a stale file sits at
the target artifact path; the script's failure handling leaves the file in place
(and exits with code 1), so the claimed deletion of the target artifact does not
happen. -/
theorem c1_artifact_cleanup_counterexample :
    (main_compilation fsC1 2).fsAfter.pathExists "build/out.exe" = true ∧
    (main_compilation fsC1 2).exit_code = some 1 := by
  constructor <;> rfl

/-- C1 (amended): on every failed main compilation the script calls
`print_error_and_exit`, exiting with code 1 and performing no filesystem operation
of its own — the target artifact path is left exactly as the compiler process left
it; in particular a pre-existing stale file is not removed. -/
theorem c1_failed_compilation_keeps_artifact (fs : FS) (r : Nat) (h : r ≠ 0) :
    main_compilation fs r = ⟨some 1, fs⟩ := by
  unfold main_compilation
  simp [h, print_error_exit_code]

theorem c1_witness :
    (2 : Nat) ≠ 0 ∧ main_compilation fsC1 2 = ⟨some 1, fsC1⟩ :=
  ⟨by decide, c1_failed_compilation_keeps_artifact fsC1 2 (by decide)⟩

/-! ### C2: exit-code propagation -/

/-- C2, counterexample: a module recompilation whose child process exits with
code 3 makes the parent terminate with exit code 1 — the fixed code of
`print_error_and_exit` — not with the child's code 3. -/
theorem c2_exit_code_counterexample :
    compile_module fsC2 "util_module.pcm" ["util.cppm"] 3 = ModuleOutcome.fatal 1 ∧
    ModuleOutcome.fatal 1 ≠ ModuleOutcome.fatal 3 := by
  constructor
  · rfl
  · decide

/-- C2 (amended): every failing path of `compile_cpp.py` terminates through
`print_error_and_exit` with the fixed exit code 1, regardless of the child's
nonzero code: a failed module recompilation, a failed main compilation, and a
failed run of the compiled program. (`test_all.py`, in contrast, does propagate
the failing sub-build's code; see the C6 theorems.) -/
theorem c2_fixed_exit_code (fs : FS) (out : Path) (paths : List Path) (c : Nat)
    (h : c ≠ 0) (hstale : module_needs_recompile fs out paths = true) :
    compile_module fs out paths c = ModuleOutcome.fatal 1 ∧
    (main_compilation fs c).exit_code = some 1 ∧
    run_program_exit c = some 1 := by
  refine ⟨?_, ?_, ?_⟩ <;>
    simp [compile_module, main_compilation, run_program_exit, h, hstale, print_error_exit_code]

theorem c2_witness :
    (3 : Nat) ≠ 0 ∧
    module_needs_recompile fsC2 "a_module.pcm" ["a.cppm"] = true ∧
    (compile_module fsC2 "a_module.pcm" ["a.cppm"] 3 = ModuleOutcome.fatal 1 ∧
      (main_compilation fsC2 3).exit_code = some 1 ∧
      run_program_exit 3 = some 1) :=
  ⟨by decide, by rfl, c2_fixed_exit_code fsC2 "a_module.pcm" ["a.cppm"] 3 (by decide) (by rfl)⟩

/-! ### C3: module precompilation under as_module -/

/-- C3, counterexample: an invocation with `as_module` set, `use_std_module` on,
and a stale std entry performs no std precompilation at all — refuting the claim
that the standard-library module is still precompiled first in that case. -/
theorem c3_counterexample :
    BuildEvent.compileModule "std" ∉
      invocation_events fsC3 true true true false [stdEntryC3] "out.pcm" ["std.cppm"] := by
  decide

/-- C3 (amended): when `as_module` is set the engine skips precompiling every
declared module — the standard-library module included: no module event of any
kind occurs in the invocation (line 544 guards the whole precompilation block). -/
theorem c3_as_module_skips_every_module (fs : FS) (u sm force : Bool)
    (mods : List ModuleEntry) (bin : Path) (inputs : List Path) :
    (invocation_events fs true u sm force mods bin inputs).all
      (fun e => !e.isModuleEvent) = true := by
  unfold invocation_events module_section
  cases h : need_recompile fs force false bin inputs <;> simp [h] <;> rfl

/-! ### C4: the staleness decision -/

theorem module_needs_recompile_iff_staleSpec (fs : FS) (a : Path) (l : List Path) :
    module_needs_recompile fs a l = true ↔ staleSpec fs a l := by
  unfold module_needs_recompile staleSpec
  cases h : fs.mtime a with
  | none => simp [h]
  | some ma =>
    simp only [h, List.any_eq_true]
    constructor
    · rintro ⟨p, hp, hpred⟩
      cases hm : fs.mtime p with
      | none =>
        rw [hm] at hpred
        exact absurd hpred (by simp)
      | some mp =>
        rw [hm] at hpred
        exact Or.inr ⟨p, hp, mp, ma, hm, rfl, by simpa using hpred⟩
    · rintro (hnone | ⟨p, hp, mp, ma2, hmp, hma, hlt⟩)
      · exact absurd hnone (by simp)
      · refine ⟨p, hp, ?_⟩
        rw [hmp]
        injection hma with e
        subst e
        simpa using hlt

/-- C4: with force unset (and no module freshly recompiled), both the main
`need_recompile` check and the per-module up-to-date check decide "rebuild" exactly
when the artifact is absent or some input path that exists on disk is strictly
newer than it; consequently an existing artifact none of whose declared inputs
still exist is judged fresh. -/
theorem c4_staleness_characterisation (fs : FS) (artifact : Path) (inputs : List Path) :
    (need_recompile fs false false artifact inputs = true ↔ staleSpec fs artifact inputs) ∧
    (module_needs_recompile fs artifact inputs = true ↔ staleSpec fs artifact inputs) ∧
    (∀ t, fs.mtime artifact = some t → (∀ p ∈ inputs, fs.mtime p = none) →
      need_recompile fs false false artifact inputs = false) := by
  refine ⟨?_, module_needs_recompile_iff_staleSpec fs artifact inputs, ?_⟩
  · rw [need_recompile_eq_module_check]
    exact module_needs_recompile_iff_staleSpec fs artifact inputs
  · intro t ht hall
    rw [need_recompile_eq_module_check]
    unfold module_needs_recompile
    rw [ht]
    simp only [List.any_eq_false]
    intro p hp
    rw [hall p hp]
    simp

theorem c4_witness :
    fsC4.mtime "prog.exe" = some 30 ∧
    (∀ p ∈ ["gone.cpp"], fsC4.mtime p = none) ∧
    need_recompile fsC4 false false "prog.exe" ["gone.cpp"] = false :=
  ⟨rfl, by decide,
    (c4_staleness_characterisation fsC4 "prog.exe" ["gone.cpp"]).2.2 30 rfl (by decide)⟩

/-! ### C5: the force flag and the per-module check -/

/-- C5, counterexample: an invocation with `force` set whose util module is up to
date still skips the util module build — the per-module staleness evaluation does
not report "stale" under force, refuting the claim that force overrides every
staleness evaluation (while the main compilation is indeed forced). -/
theorem c5_counterexample :
    BuildEvent.skipModule "util" ∈
      invocation_events fsC5 false false true true [utilEntryC5] "prog" ["main.cpp"] ∧
    BuildEvent.compileModule "util" ∉
      invocation_events fsC5 false false true true [utilEntryC5] "prog" ["main.cpp"] := by
  decide

/-- C5 (amended): `force=true` makes the main-binary staleness evaluation report
"stale" unconditionally, but the per-module up-to-date check inside
`compile_module` does not consult the force flag at all: the module events of an
invocation are identical with and without force. -/
theorem c5_force_affects_main_only (fs : FS) :
    (∀ r bin inputs, need_recompile fs true r bin inputs = true) ∧
    (∀ asm u sm f g mods bin inputs,
      (invocation_events fs asm u sm f mods bin inputs).filter BuildEvent.isModuleEvent =
        (invocation_events fs asm u sm g mods bin inputs).filter BuildEvent.isModuleEvent) := by
  constructor
  · intro r bin inputs
    exact need_recompile_of_force fs r bin inputs
  · intro asm u sm f g mods bin inputs
    unfold invocation_events
    rw [List.filter_append, List.filter_append]
    congr 1
    cases h1 : need_recompile fs f (module_section fs asm u sm mods).2 bin inputs <;>
      cases h2 : need_recompile fs g (module_section fs asm u sm mods).2 bin inputs <;>
        simp [h1, h2, BuildEvent.isModuleEvent]

/-! ### C6: matrix mode fail-fast and its exit code -/

/-- C6, counterexample: over the detection-ordered backends cl and clang++ crossed
with the three standards, the fourth combination's sub-build fails with exit code
2; the `try_all` loop executes exactly four sub-builds in order but terminates with
exit code 1, not the failing combination's code. -/
theorem c6_counterexample :
    try_all_loop resultC6 (matrix_pairs ["cl", "clang++"] all_standards) =
      ⟨[("cl", "c++17"), ("cl", "c++20"), ("cl", "c++23"), ("clang++", "c++17")], 1⟩ ∧
    resultC6 "clang++" "c++17" = 2 ∧ (1 : Nat) ≠ 2 := by
  exact ⟨by decide, by decide, by decide⟩

/-- C6 (amended): both matrix drivers run the combinations in the fixed nested
order and stop at the first failing one, executing exactly the passing prefix plus
the failing combination; `try_all` in `compile_cpp.py` then exits with the fixed
code 1, while the `test_all.py` driver exits with the failing combination's own
code. -/
theorem c6_fail_fast (result : String → String → Nat) (l₁ l₂ : List (String × String))
    (p : String × String) (h0 : ∀ q ∈ l₁, result q.1 q.2 = 0) (hp : result p.1 p.2 ≠ 0) :
    try_all_loop result (l₁ ++ p :: l₂) = ⟨l₁ ++ [p], 1⟩ ∧
    test_all_loop result (l₁ ++ p :: l₂) = ⟨l₁ ++ [p], result p.1 p.2⟩ := by
  induction l₁ with
  | nil =>
    obtain ⟨c, s⟩ := p
    simp only [List.nil_append]
    constructor
    · unfold try_all_loop
      simp only at hp
      simp [hp]
    · unfold test_all_loop
      simp only at hp
      simp [hp]
  | cons a t ih =>
    obtain ⟨c, s⟩ := a
    have ha : result c s = 0 := h0 (c, s) (List.mem_cons_self _ _)
    have ih2 := ih fun q hq => h0 q (List.mem_cons_of_mem _ hq)
    simp only [List.cons_append]
    constructor
    · unfold try_all_loop
      simp [ha, ih2.1]
    · unfold test_all_loop
      simp [ha, ih2.2]

theorem c6_witness :
    (∀ q ∈ [(("cl" : String), ("c++17" : String)), ("cl", "c++20"), ("cl", "c++23")],
      resultC6w q.1 q.2 = 0) ∧
    resultC6w "g++" "c++17" ≠ 0 ∧
    (try_all_loop resultC6w
        ([("cl", "c++17"), ("cl", "c++20"), ("cl", "c++23")] ++
          ("g++", "c++17") :: [("g++", "c++20"), ("g++", "c++23")]) =
        ⟨[("cl", "c++17"), ("cl", "c++20"), ("cl", "c++23")] ++ [("g++", "c++17")], 1⟩ ∧
      test_all_loop resultC6w
        ([("cl", "c++17"), ("cl", "c++20"), ("cl", "c++23")] ++
          ("g++", "c++17") :: [("g++", "c++20"), ("g++", "c++23")]) =
        ⟨[("cl", "c++17"), ("cl", "c++20"), ("cl", "c++23")] ++ [("g++", "c++17")],
          resultC6w "g++" "c++17"⟩) :=
  ⟨by decide, by decide,
    c6_fail_fast resultC6w [("cl", "c++17"), ("cl", "c++20"), ("cl", "c++23")]
      [("g++", "c++20"), ("g++", "c++23")] ("g++", "c++17") (by decide) (by decide)⟩

/-! ### C7: configuration merge precedence -/

theorem find?_filter_of_imp {α : Type} (l : List α) (p q : α → Bool)
    (h : ∀ x, q x = true → p x = true) :
    (l.filter p).find? q = l.find? q := by
  induction l with
  | nil => rfl
  | cons a t ih =>
    rw [List.filter_cons]
    cases hq : q a with
    | true =>
      rw [h a hq]
      simp only [if_true]
      rw [List.find?_cons_of_pos _ hq, List.find?_cons_of_pos _ hq]
    | false =>
      cases hp : p a with
      | true =>
        simp only [if_true]
        rw [List.find?_cons_of_neg _ (by simp [hq]), ih,
          List.find?_cons_of_neg _ (by simp [hq])]
      | false =>
        simp only [Bool.false_eq_true, if_false]
        rw [ih, List.find?_cons_of_neg _ (by simp [hq])]

theorem dict_update_key_fst (upd : List (String × List String)) (kv : String × List String) :
    (match upd.find? (fun uv : String × List String => uv.1 == kv.1) with
      | some uv => (kv.1, uv.2)
      | none => kv).1 = kv.1 := by
  cases upd.find? (fun uv : String × List String => uv.1 == kv.1) <;> rfl

/-- Lookup after `dict.update`: a key present in the updating dictionary resolves to
the updating value; any other key keeps the base value. -/
theorem lookup_dict_update (base upd : List (String × List String)) (k : String) :
    lookup_module (dict_update base upd) k =
      match lookup_module upd k with
      | some v => some v
      | none => lookup_module base k := by
  unfold lookup_module dict_update
  rw [List.find?_append, List.find?_map]
  have hcomp :
      ((fun kv : String × List String => kv.1 == k) ∘
        (fun kv : String × List String =>
          match upd.find? (fun uv : String × List String => uv.1 == kv.1) with
          | some uv => (kv.1, uv.2)
          | none => kv)) = fun kv : String × List String => kv.1 == k := by
    funext kv
    simp only [Function.comp]
    rw [dict_update_key_fst]
  rw [hcomp]
  cases hb : base.find? (fun kv : String × List String => kv.1 == k) with
  | some kv =>
    have hk : kv.1 = k := eq_of_beq (by simpa using List.find?_some hb)
    simp only [Option.map_some', Option.or_some]
    rw [hk]
    cases hu : upd.find? (fun uv : String × List String => uv.1 == k) <;> rfl
  | none =>
    simp only [Option.map_none', Option.none_or]
    have hsub : (upd.filter fun uv : String × List String =>
          base.all fun kv => kv.1 != uv.1).find?
          (fun kv : String × List String => kv.1 == k) =
        upd.find? (fun kv : String × List String => kv.1 == k) := by
      apply find?_filter_of_imp
      intro uv hq
      have huv : uv.1 = k := eq_of_beq hq
      rw [List.all_eq_true]
      intro kv hkv
      have hne := List.find?_eq_none.mp hb kv hkv
      rw [huv]
      simpa [bne] using hne
    rw [hsub]
    cases upd.find? (fun kv : String × List String => kv.1 == k) <;> rfl

/-- C7, counterexample: a module named util declared both on the command line and in
the configuration document — the merged options carry the document's file list, not
the command line's, because `dict.update` lets the document's entry win. -/
theorem c7_counterexample :
    lookup_module (merge_config cliC7 cfgC7).modules "util" = some ["yaml_util.cppm"] ∧
    (some ["yaml_util.cppm"] : Option (List String)) ≠ some ["cli_util.cppm"] := by
  exact ⟨by decide, by decide⟩

/-- C7 (amended): in the configuration merge, a module specification present in the
document replaces a same-named command-line one (`dict.update` semantics), while a
module only on the command line keeps its value; the output path, standard-library
module path, and exception policy from the command line do take precedence, the
document supplying output and std-module only when the command line omits them; and
list-valued options such as the defines are concatenated rather than overridden. -/
theorem c7_merge_precedence (cli : CliOptions) (cfg : ConfigDoc) :
    (∀ k, lookup_module (merge_config cli cfg).modules k =
        match lookup_module cfg.modules k with
        | some v => some v
        | none => lookup_module cli.modules k) ∧
    (∀ o, cli.output = some o → (merge_config cli cfg).output = some o) ∧
    (cli.output = none → (merge_config cli cfg).output = cfg.output) ∧
    (∀ s, cli.std_module = some s → (merge_config cli cfg).std_module = some s) ∧
    (∀ b, cli.disable_exceptions = some b → (merge_config cli cfg).disable_exceptions = b) ∧
    (merge_config cli cfg).defines = cli.defines ++ cfg.defines := by
  refine ⟨fun k => lookup_dict_update cli.modules cfg.modules k, ?_, ?_, ?_, ?_, rfl⟩
  · intro o ho
    simp [merge_config, ho]
  · intro ho
    simp [merge_config, ho]
  · intro s hs
    simp [merge_config, hs]
  · intro b hb
    simp [merge_config, hb]

theorem c7_witness :
    cliC7w.output = some "cli_out" ∧
    cliC7w.std_module = some "cli_std.cppm" ∧
    cliC7w.disable_exceptions = some false ∧
    ((merge_config cliC7w cfgC7w).output = some "cli_out" ∧
      (merge_config cliC7w cfgC7w).std_module = some "cli_std.cppm" ∧
      (merge_config cliC7w cfgC7w).disable_exceptions = false ∧
      lookup_module (merge_config cliC7w cfgC7w).modules "beta" =
        match lookup_module cfgC7w.modules "beta" with
        | some v => some v
        | none => lookup_module cliC7w.modules "beta") :=
  ⟨rfl, rfl, rfl,
    (c7_merge_precedence cliC7w cfgC7w).2.1 "cli_out" rfl,
    (c7_merge_precedence cliC7w cfgC7w).2.2.2.1 "cli_std.cppm" rfl,
    (c7_merge_precedence cliC7w cfgC7w).2.2.2.2.1 false rfl,
    (c7_merge_precedence cliC7w cfgC7w).1 "beta"⟩

/-! ### C8: module compilation order -/

theorem module_section_snd (fs : FS) (a u sm : Bool) (mods : List ModuleEntry) :
    (module_section fs a u sm mods).2 =
      (module_section fs a u sm mods).1.any BuildEvent.isCompileModule := by
  unfold module_section
  cases a <;> rfl

theorem invocation_events_eq (fs : FS) (a u sm force : Bool) (mods : List ModuleEntry)
    (bin : Path) (inputs : List Path) :
    invocation_events fs a u sm force mods bin inputs =
      (module_section fs a u sm mods).1 ++
        [if need_recompile fs force (module_section fs a u sm mods).2 bin inputs then
          BuildEvent.mainCompile
        else BuildEvent.skipMain] := rfl

theorem eventNames_map_module_event (fs : FS) (l : List ModuleEntry) :
    eventNames (l.map (module_event fs)) = l.map ModuleEntry.name := by
  unfold eventNames
  rw [List.filterMap_map]
  have hfun : (moduleEventName ∘ module_event fs) = fun m : ModuleEntry => some m.name := by
    funext m
    exact moduleEventName_module_event fs m
  rw [hfun]
  exact congrFun (List.filterMap_eq_map ModuleEntry.name) l

theorem eventNames_main_step (b : Bool) :
    eventNames [if b then BuildEvent.mainCompile else BuildEvent.skipMain] = [] := by
  cases b <;> rfl

/-- C8: in a non-module invocation under a modules-capable standard, (a) whenever a
stale module triggers a recursive module build, the main compilation is executed,
comes last, and the module build occurs strictly before it; (b) the modules are
processed with the standard-library entry first (when requested and declared) and
the remaining entries in caller-declared order. -/
theorem c8_module_ordering (fs : FS) (u force : Bool) (mods : List ModuleEntry)
    (bin : Path) (inputs : List Path) :
    (∀ n, BuildEvent.compileModule n ∈ invocation_events fs false u true force mods bin inputs →
      ∃ l₁, invocation_events fs false u true force mods bin inputs =
          l₁ ++ [BuildEvent.mainCompile] ∧ BuildEvent.compileModule n ∈ l₁) ∧
    eventNames (invocation_events fs false u true force mods bin inputs) =
      (if u && (mods.find? (fun m => m.name == "std")).isSome then ["std"] else []) ++
        (mods.filter (fun m => m.name != "std")).map ModuleEntry.name := by
  have hmemof : ∀ n, BuildEvent.compileModule n ∈
      invocation_events fs false u true force mods bin inputs →
      BuildEvent.compileModule n ∈ (module_section fs false u true mods).1 := by
    intro n hn
    rw [invocation_events_eq] at hn
    rcases List.mem_append.mp hn with h1 | h2
    · exact h1
    · cases hb : need_recompile fs force (module_section fs false u true mods).2 bin inputs <;>
        rw [hb] at h2 <;> simp at h2
  constructor
  · intro n hn
    have hmem := hmemof n hn
    refine ⟨(module_section fs false u true mods).1, ?_, hmem⟩
    rw [invocation_events_eq]
    have hrec : (module_section fs false u true mods).2 = true := by
      rw [module_section_snd]
      exact List.any_eq_true.mpr ⟨_, hmem, rfl⟩
    rw [hrec, need_recompile_of_recompiled]
    simp
  · rw [invocation_events_eq]
    rw [eventNames, List.filterMap_append, ← eventNames, ← eventNames,
      eventNames_main_step, List.append_nil]
    unfold module_section
    simp only [Bool.false_eq_true, if_false, ite_false]
    rw [eventNames, List.filterMap_append, ← eventNames, ← eventNames]
    congr 1
    · cases hf : mods.find? (fun m => m.name == "std") with
      | some e =>
        have he : e.name = "std" := eq_of_beq (by simpa using List.find?_some hf)
        cases u with
        | true =>
          simp only [Option.isSome_some, Bool.and_true, if_true]
          rw [eventNames]
          simp [moduleEventName_module_event, he]
        | false => simp [eventNames]
      | none => simp [eventNames]
    · cases hmods : mods with
      | nil => simp [eventNames]
      | cons m t =>
        simp only [List.isEmpty_cons, Bool.not_false, Bool.true_and, if_true]
        exact eventNames_map_module_event fs ((m :: t).filter (fun x => x.name != "std"))

theorem c8_witness :
    BuildEvent.compileModule "alpha" ∈
      invocation_events fsC8 false true true false modsC8 "prog" ["main.cpp"] ∧
    (∃ l₁, invocation_events fsC8 false true true false modsC8 "prog" ["main.cpp"] =
        l₁ ++ [BuildEvent.mainCompile] ∧ BuildEvent.compileModule "alpha" ∈ l₁) :=
  ⟨by decide,
    (c8_module_ordering fsC8 true false modsC8 "prog" ["main.cpp"]).1 "alpha" (by decide)⟩

/-! ### C9: binary-name derivation on an empty source list -/

/-- C9: with the clear-output flag unset, an invocation with an empty file list and
an automatic binary name reaches the derivation, and the derivation has no result
on an empty list — `source_paths[0]` is an unguarded subscript (IndexError), so
the operation is not total on empty input. -/
theorem c9_empty_sources_not_total :
    reaches_auto_binary false 0 true = true ∧
    ∀ asm win ext suf, auto_binary_name [] asm win ext suf = none := by
  constructor
  · rfl
  · intro asm win ext suf
    rfl

/-! ### C10: clear-output guard for the working directory -/

/-- C10: with the clear-output flag set and the resolved build folder equal to the
current working directory, the invocation terminates with a fatal error (exit 1)
raised before any deletion: the outcome is fatal and the filesystem is unchanged. -/
theorem c10_clear_cwd_guard (fs : FS) (build_folder cwd : Path) (n now : Nat)
    (h : build_folder = cwd) :
    clear_output_step fs true build_folder cwd n now = (ClearOutcome.fatal 1, fs) := by
  subst h
  unfold clear_output_step
  simp [print_error_exit_code]

theorem c10_witness :
    ("proj" : Path) = "proj" ∧
    clear_output_step fsC10 true "proj" "proj" 2 99 = (ClearOutcome.fatal 1, fsC10) :=
  ⟨rfl, c10_clear_cwd_guard fsC10 "proj" "proj" 2 99 rfl⟩

end CompileCpp
